import Mathlib

/-!
Verification of the conversation-preview assembly in
`src/components/chat/ChatList.tsx` (`fetchChats` inside the `ChatList`
component).  The backing store (supabase tables `chat_participants`,
`profiles`, `messages`) is modelled as an explicit relational state, and
`fetchChats` as a pure function of the session and the store that also
returns the trace of queries it issued and the final component state
(`chats`, `loading`, toast).
-/

/-- Row of the `chat_participants` table. -/
structure ParticipantRow where
  chat_id : String
  user_id : String
deriving Repr, DecidableEq

/-- Row of the `profiles` table; `username` and `avatar_url` are nullable. -/
structure ProfileRow where
  id : String
  username : Option String
  avatar_url : Option String
deriving Repr, DecidableEq

/-- Row of the `messages` table.  `created_at` is the creation timestamp in
epoch milliseconds (the source stores an ISO timestamp string and parses it
with `new Date`, a faithful round trip). -/
structure MessageRow where
  chat_id : String
  sender_id : String
  content : String
  created_at : Nat
  read : Bool
deriving Repr, DecidableEq

/-- The backing store.  `membershipFails` models a backend error on the
initial `chat_participants` query (line 35); `countFails` lists the chat ids
whose unread-count query (line 83) errors, so that `count` comes back null. -/
structure Store where
  participants : List ParticipantRow
  profiles : List ProfileRow
  messages : List MessageRow
  membershipFails : Bool
  countFails : List String
deriving Repr, DecidableEq

/-- The queries `fetchChats` can issue against the store, one constructor per
supabase call site, plus the one write the `messages` table supports
(setting the `read` flag).  `fetchChats` never issues the write; it is here
so that the frame theorem has content. -/
inductive Query where
  | selectChatIds (user_id : String)
  | selectOtherParticipant (chat_id user_id : String)
  | selectProfile (id : String)
  | selectLastMessage (chat_id : String)
  | countUnread (chat_id user_id : String)
  | markMessageRead (chat_id : String)
deriving Repr, DecidableEq

/-- A query is a read unless it is the `read`-flag write. -/
def Query.isRead : Query → Bool
  | .markMessageRead _ => false
  | _ => true

/-- Effect of a query on the store: reads leave it unchanged, the write sets
the `read` flag of every message of the chat. -/
def applyQuery (st : Store) : Query → Store
  | .markMessageRead c =>
      { st with
        messages := st.messages.map fun m =>
          if m.chat_id == c then { m with read := true } else m }
  | _ => st

/-- The in-memory preview record (`ChatPreview` interface, lines 7-14).
The source always assigns strings (possibly empty) to `last_message` and
`last_time`, and a number to `unread`, so those are modelled non-optional. -/
structure ChatPreview where
  id : String
  username : String
  avatar_url : Option String
  last_message : String
  last_time : String
  unread : Nat
deriving Repr, DecidableEq

/-- JavaScript `x || d` on a nullable string: the default is taken when the
value is null or the empty string (both falsy). -/
def jsOrString (v : Option String) (d : String) : String :=
  match v with
  | some s => if s = "" then d else s
  | none => d

/-- Two-digit zero padding. -/
def pad2 (n : Nat) : String :=
  if n < 10 then "0" ++ toString n else toString n

/-- Modelled from `new Date(ms).toLocaleTimeString([], \x7b hour: '2-digit',
minute: '2-digit' \x7d)` (line 95) for a 24-hour locale in UTC: the clock
time `"HH:MM"`, discarding the date part of the timestamp. -/
def formatTime (ms : Nat) : String :=
  pad2 (ms / 3600000 % 24) ++ ":" ++ pad2 (ms / 60000 % 60)

/-- Modelled from the host `new Date(s).getTime()` as used at the sort
comparator (line 106), restricted to the strings this component stores in
`last_time`: the empty string and the `"HH:MM"` clock strings produced by
`formatTime`.  Neither is a date format the ECMAScript Date parser accepts
(time-only strings are rejected), so the parse yields an invalid date and
`getTime()` is NaN, modelled as `none`. -/
def jsDateGetTime (_s : String) : Option Int := none

/-- The sort comparator (lines 103-107).  `none` is NaN: the subtraction of
two `getTime()` values propagates NaN when either parse is invalid. -/
def previewCompare (a b : ChatPreview) : Option Int :=
  if a.last_time = "" then some 1
  else if b.last_time = "" then some (-1)
  else
    match jsDateGetTime b.last_time, jsDateGetTime a.last_time with
    | some tb, some ta => some (tb - ta)
    | _, _ => none

/-- Derived strict order used by the engine sort: an element moves in front
of another only when the comparator is a number strictly below zero; a NaN
comparator result moves nothing (in every branch test of the sort, both
`n < 0` and `n > 0` are false for NaN). -/
def previewLt (a b : ChatPreview) : Bool :=
  match previewCompare a b with
  | some n => decide (n < 0)
  | none => false

/-- Insert `x` into `l` directly before the first element `y` with
`lt x y`; otherwise `x` stays behind it.  This is the placement ECMAScript
`Array.prototype.sort` (stable since ES2019) gives each element. -/
def jsInsert (lt : α → α → Bool) (x : α) : List α → List α
  | [] => [x]
  | y :: ys => if lt x y then x :: y :: ys else y :: jsInsert lt x ys

/-- Stable sort processing the array left to right, as the engine does. -/
def jsSort (lt : α → α → Bool) (l : List α) : List α :=
  l.foldl (fun acc x => jsInsert lt x acc) []

/-- Rows of `chat_participants` for the current user (lines 35-38). -/
def memberRows (st : Store) (uid : String) : List ParticipantRow :=
  st.participants.filter fun r => r.user_id == uid

/-- The conversation ids the user belongs to (`chatIds`, line 48). -/
def memberChatIds (st : Store) (uid : String) : List String :=
  (memberRows st uid).map (·.chat_id)

/-- The counterpart lookup (lines 55-60): rows of the chat other than the
current user, passed through `.single()`, which succeeds only on exactly one
row. -/
def findOther (st : Store) (uid c : String) : Option String :=
  match st.participants.filter (fun r => r.chat_id == c && r.user_id != uid) with
  | [r] => some r.user_id
  | _ => none

/-- The profile lookup (lines 65-69), again through `.single()`. -/
def findProfileRow (st : Store) (pid : String) : Option ProfileRow :=
  match st.profiles.filter (fun p => p.id == pid) with
  | [p] => some p
  | _ => none

/-- All messages of a chat. -/
def chatMessages (st : Store) (c : String) : List MessageRow :=
  st.messages.filter fun m => m.chat_id == c

/-- The last-message query (lines 74-80): order by `created_at` descending,
limit 1.  On an empty chat `.single()` errors, the source ignores `msgError`
and `lastMessage` is null, which is `none` here. -/
def lastMessage (st : Store) (c : String) : Option MessageRow :=
  (jsSort (fun m1 m2 => decide (m2.created_at < m1.created_at))
    (chatMessages st c)).head?

/-- The unread-count query (lines 83-88): messages of the chat with
`read = false` and a sender other than the current user.  `none` models the
null count of a failed query. -/
def unreadCountQuery (st : Store) (uid c : String) : Option Nat :=
  if st.countFails.contains c then none
  else some ((st.messages.filter fun m =>
    m.chat_id == c && m.read == false && m.sender_id != uid).length)

/-- One iteration of the per-chat loop (lines 53-100): resolve the
counterpart, then the profile (each failure skips the chat via `continue`),
fetch the last message and the unread count, and assemble the preview
(lines 90-97).  `unreadCount || 0` defaults a null count to zero. -/
def mkPreview (st : Store) (uid c : String) : Option ChatPreview :=
  match findOther st uid c with
  | none => none
  | some otherId =>
    match findProfileRow st otherId with
    | none => none
    | some prof =>
      let lm := lastMessage st c
      some
        { id := otherId
          username := jsOrString prof.username "Usuário"
          avatar_url := prof.avatar_url
          last_message := jsOrString (lm.map (·.content)) ""
          last_time :=
            match lm with
            | some m => formatTime m.created_at
            | none => ""
          unread :=
            match unreadCountQuery st uid c with
            | some n => n
            | none => 0 }

/-- Queries issued by one iteration of the loop: the counterpart query
always, the profile query once a counterpart resolved, the message and count
queries once the profile resolved. -/
def chatTrace (st : Store) (uid c : String) : List Query :=
  match findOther st uid c with
  | none => [.selectOtherParticipant c uid]
  | some otherId =>
    match findProfileRow st otherId with
    | none => [.selectOtherParticipant c uid, .selectProfile otherId]
    | some _ =>
        [.selectOtherParticipant c uid, .selectProfile otherId,
         .selectLastMessage c, .countUnread c uid]

/-- A chat resolves when both the counterpart and the profile lookup
succeed. -/
def resolves (st : Store) (uid c : String) : Bool :=
  match findOther st uid c with
  | some o => (findProfileRow st o).isSome
  | none => false

/-- Final component state and query trace of one run of `fetchChats` on the
freshly mounted component (`chats` initially empty). -/
structure FetchResult where
  chats : List ChatPreview
  loading : Bool
  toast : Option String
  trace : List Query
deriving Repr, DecidableEq

/-- The toast shown by the catch block (line 112). -/
def toastMsg : String := "Não foi possível carregar suas conversas"

/-- The whole of `fetchChats` (lines 22-116).  A `none` session returns the
empty list before any store query (lines 26-30); a failed membership query
throws into the catch block, which toasts and leaves `chats` at its initial
empty value (lines 40, 110-115); an empty membership list returns early
(lines 42-46); otherwise the per-chat loop runs and the result is sorted by
the comparator of lines 103-107.  The `finally` block clears `loading` on
every path. -/
def fetchChats (session : Option String) (st : Store) : FetchResult :=
  match session with
  | none => { chats := [], loading := false, toast := none, trace := [] }
  | some uid =>
    if st.membershipFails then
      { chats := [], loading := false, toast := some toastMsg,
        trace := [.selectChatIds uid] }
    else
      let parts := memberRows st uid
      if parts.isEmpty then
        { chats := [], loading := false, toast := none,
          trace := [.selectChatIds uid] }
      else
        let chatIds := parts.map (·.chat_id)
        { chats := jsSort previewLt (chatIds.filterMap (mkPreview st uid))
          loading := false
          toast := none
          trace := .selectChatIds uid :: (chatIds.map (chatTrace st uid)).flatten }

/-! ### Helper lemmas -/

/-- Unfolding of `fetchChats` on an authenticated session into its three
branches, with the let-bound `chatIds` expressed through `memberChatIds`. -/
theorem fetchChats_some_eq (uid : String) (st : Store) :
    fetchChats (some uid) st
      = if st.membershipFails then
          { chats := [], loading := false, toast := some toastMsg,
            trace := [.selectChatIds uid] }
        else if (memberRows st uid).isEmpty then
          { chats := [], loading := false, toast := none,
            trace := [.selectChatIds uid] }
        else
          { chats := jsSort previewLt
              ((memberChatIds st uid).filterMap (mkPreview st uid))
            loading := false
            toast := none
            trace := .selectChatIds uid ::
              ((memberChatIds st uid).map (chatTrace st uid)).flatten } := rfl

theorem jsInsert_length (lt : α → α → Bool) (x : α) (l : List α) :
    (jsInsert lt x l).length = l.length + 1 := by
  induction l with
  | nil => rfl
  | cons y ys ih =>
    simp only [jsInsert]
    split
    · simp
    · simp [ih]

theorem jsSort_length (lt : α → α → Bool) (l : List α) :
    (jsSort lt l).length = l.length := by
  suffices h : ∀ acc : List α,
      (l.foldl (fun acc x => jsInsert lt x acc) acc).length
        = acc.length + l.length by
    simpa using h []
  induction l with
  | nil => intro acc; simp
  | cons x xs ih =>
    intro acc
    simp only [List.foldl_cons]
    rw [ih (jsInsert lt x acc), jsInsert_length]
    simp only [List.length_cons]
    omega

theorem length_filterMap_countP (f : α → Option β) (l : List α) :
    (l.filterMap f).length = l.countP (fun a => (f a).isSome) := by
  induction l with
  | nil => rfl
  | cons x xs ih =>
    simp only [List.filterMap_cons, List.countP_cons]
    cases hx : f x with
    | none => simp [hx, ih]
    | some b => simp [hx, ih]

theorem countP_eq_length_sub (p : α → Bool) (l : List α) :
    l.countP p = l.length - l.countP (fun a => !(p a)) := by
  have hsum := List.length_eq_countP_add_countP p l
  have hle := List.countP_le_length (fun a => !(p a)) (l := l)
  have heq : l.countP (fun a => decide ¬(p a = true)) = l.countP (fun a => !(p a)) := by
    simp
  omega

theorem mkPreview_isSome (st : Store) (uid c : String) :
    (mkPreview st uid c).isSome = resolves st uid c := by
  cases ho : findOther st uid c with
  | none => simp [mkPreview, resolves, ho]
  | some o =>
    cases hp : findProfileRow st o with
    | none => simp [mkPreview, resolves, ho, hp]
    | some pr => simp [mkPreview, resolves, ho, hp]

theorem applyQuery_of_isRead (st : Store) (q : Query) (h : q.isRead = true) :
    applyQuery st q = st := by
  cases q with
  | markMessageRead c => exact absurd h (by simp [Query.isRead])
  | selectChatIds u => rfl
  | selectOtherParticipant c u => rfl
  | selectProfile i => rfl
  | selectLastMessage c => rfl
  | countUnread c u => rfl

theorem foldl_applyQuery_id (l : List Query) (st : Store)
    (h : l.all Query.isRead = true) : l.foldl applyQuery st = st := by
  induction l generalizing st with
  | nil => rfl
  | cons q qs ih =>
    simp only [List.all_cons, Bool.and_eq_true] at h
    simp only [List.foldl_cons, applyQuery_of_isRead st q h.1]
    exact ih st h.2

theorem chatTrace_isRead (st : Store) (uid c : String) :
    ∀ q ∈ chatTrace st uid c, q.isRead = true := by
  intro q hq
  unfold chatTrace at hq
  split at hq
  · simp only [List.mem_singleton] at hq
    subst hq; rfl
  · split at hq
    · simp only [List.mem_cons, List.not_mem_nil, or_false] at hq
      rcases hq with h | h <;> (subst h; rfl)
    · simp only [List.mem_cons, List.not_mem_nil, or_false] at hq
      rcases hq with h | h | h | h <;> (subst h; rfl)

theorem fetchChats_trace_isRead (s : Option String) (st : Store) :
    (fetchChats s st).trace.all Query.isRead = true := by
  cases s with
  | none => rfl
  | some uid =>
    rw [fetchChats_some_eq]
    by_cases hf : st.membershipFails
    · simp [hf, Query.isRead]
    · by_cases he : (memberRows st uid).isEmpty
      · simp [hf, he, Query.isRead]
      · simp only [hf, he, if_false, Bool.false_eq_true, if_neg]
        rw [List.all_eq_true]
        intro q hq
        rcases List.mem_cons.mp hq with h | h
        · subst h; rfl
        · rcases List.mem_flatten.mp h with ⟨t, ht, hqt⟩
          rcases List.mem_map.mp ht with ⟨c, _, rfl⟩
          exact chatTrace_isRead st uid c q hqt

theorem fetchChats_toast_none (uid : String) (st : Store)
    (h : st.membershipFails = false) :
    (fetchChats (some uid) st).toast = none := by
  rw [fetchChats_some_eq]
  by_cases he : (memberRows st uid).isEmpty <;> simp [h, he]

/-! ### Concrete stores used as inputs -/

/-- Store for the sort evaluation: user "A" belongs to chats "c1" (with "B",
last message at 60000 ms) and "c2" (with "C", last message at 120000 ms), in
that membership order. -/
def storeC1 : Store :=
  { participants := [⟨"c1", "A"⟩, ⟨"c1", "B"⟩, ⟨"c2", "A"⟩, ⟨"c2", "C"⟩]
    profiles := [⟨"B", some "Bea", none⟩, ⟨"C", some "Cid", none⟩]
    messages := [⟨"c1", "B", "old", 60000, true⟩, ⟨"c2", "C", "new", 120000, true⟩]
    membershipFails := false
    countFails := [] }

/-- Store with three memberships for "A": "c1" resolves, "c2" has no
counterpart at all, "c3" has two other participants. -/
def storeC3 : Store :=
  { participants := [⟨"c1", "A"⟩, ⟨"c1", "B"⟩, ⟨"c2", "A"⟩,
                     ⟨"c3", "A"⟩, ⟨"c3", "B"⟩, ⟨"c3", "C"⟩]
    profiles := [⟨"B", some "Bea", none⟩, ⟨"C", none, none⟩]
    messages := []
    membershipFails := false
    countFails := [] }

/-- Store whose membership query errors. -/
def storeC4 : Store :=
  { participants := [⟨"c1", "A"⟩, ⟨"c1", "B"⟩]
    profiles := [⟨"B", some "Bea", none⟩]
    messages := []
    membershipFails := true
    countFails := [] }

/-- Store with one chat of "A" and "B" holding an unread message from "B",
a read message from "B" and an unread message from "A" herself. -/
def storeC5 : Store :=
  { participants := [⟨"c1", "A"⟩, ⟨"c1", "B"⟩]
    profiles := [⟨"B", some "Bea", none⟩]
    messages := [⟨"c1", "B", "hi", 1000, false⟩, ⟨"c1", "B", "old", 500, true⟩,
                 ⟨"c1", "A", "mine", 2000, false⟩]
    membershipFails := false
    countFails := [] }

/-- Store with one chat, no messages, and a counterpart profile whose
`username` is null. -/
def storeC6 : Store :=
  { participants := [⟨"c1", "A"⟩, ⟨"c1", "B"⟩]
    profiles := [⟨"B", none, none⟩]
    messages := []
    membershipFails := false
    countFails := [] }

/-! ### The claims -/

/-- Claim C1 (refuted by the code, a code bug): the claim says the preview
with the greater `lastMessageTime` precedes the other, so on `storeC1` the
preview of "C" (message at 120000 ms) should precede that of "B" (message at
60000 ms).  Evaluating `fetchChats` shows the output keeps the membership
order "B" before "C": the comparator of lines 103-107 parses the formatted
`"HH:MM"` strings with `new Date`, which yields NaN, and a NaN comparator
result never reorders two timestamped previews — contradicting the source's
own comment "Ordenar chats por última mensagem (mais recente primeiro)". -/
theorem c1_sort_not_by_time_eval :
    (lastMessage storeC1 "c1").map (·.created_at) = some 60000
      ∧ (lastMessage storeC1 "c2").map (·.created_at) = some 120000
      ∧ (fetchChats (some "A") storeC1).chats.map (fun p => (p.id, p.last_time))
          = [("B", "00:01"), ("C", "00:02")] :=
  ⟨rfl, rfl, rfl⟩

/-- Claim C2: with an absent session `fetchChats` returns the empty list,
issues no query at all, and raises no toast. -/
theorem c2_no_session_empty_no_queries (st : Store) :
    fetchChats none st
      = { chats := [], loading := false, toast := none, trace := [] } := rfl

/-- Claim C3: when the membership query succeeds, the number of previews is
exactly the number of memberships minus the number of conversations whose
counterpart-or-profile lookup fails, and never exceeds the membership
count. -/
theorem c3_skipped_conversations_count (uid : String) (st : Store)
    (h : st.membershipFails = false) :
    (fetchChats (some uid) st).chats.length
        = (memberChatIds st uid).length
          - (memberChatIds st uid).countP (fun c => !(resolves st uid c))
      ∧ (fetchChats (some uid) st).chats.length
          ≤ (memberChatIds st uid).length := by
  have hne : ¬(st.membershipFails = true) := by simp [h]
  have hmain : (fetchChats (some uid) st).chats.length
      = (memberChatIds st uid).countP (fun c => resolves st uid c) := by
    rw [fetchChats_some_eq, if_neg hne]
    by_cases he : (memberRows st uid).isEmpty
    · rw [if_pos he]
      have h0 : memberRows st uid = [] := List.isEmpty_iff.mp he
      simp [memberChatIds, h0]
    · rw [if_neg he]
      show (jsSort previewLt
        ((memberChatIds st uid).filterMap (mkPreview st uid))).length = _
      rw [jsSort_length, length_filterMap_countP]
      simp only [mkPreview_isSome]
  constructor
  · rw [hmain, countP_eq_length_sub]
  · rw [hmain]
    exact List.countP_le_length _

/-- Witness for C3 on `storeC3`: three memberships, two failing lookups,
one preview. -/
theorem c3_skipped_conversations_count_witness :
    (fetchChats (some "A") storeC3).chats.length
        = (memberChatIds storeC3 "A").length
          - (memberChatIds storeC3 "A").countP (fun c => !(resolves storeC3 "A" c))
      ∧ (fetchChats (some "A") storeC3).chats.length
          ≤ (memberChatIds storeC3 "A").length :=
  c3_skipped_conversations_count "A" storeC3 rfl

/-- Claim C4: a failing membership query fails the whole load: the toast is
raised, the list stays empty, and only the membership query was issued. -/
theorem c4_membership_failure_toast_empty (uid : String) (st : Store)
    (h : st.membershipFails = true) :
    fetchChats (some uid) st
      = { chats := [], loading := false, toast := some toastMsg,
          trace := [.selectChatIds uid] } := by
  rw [fetchChats_some_eq, if_pos h]

/-- Witness for C4 on `storeC4`. -/
theorem c4_membership_failure_toast_empty_witness :
    fetchChats (some "A") storeC4
      = { chats := [], loading := false, toast := some toastMsg,
          trace := [.selectChatIds "A"] } :=
  c4_membership_failure_toast_empty "A" storeC4 rfl

/-- Claim C5: the `unread` field of every assembled preview counts exactly
the messages of the chat that are marked unread and not sent by the current
user, and is 0 when the count query fails; being a `Nat`, it is non-negative
by construction. -/
theorem c5_unread_count_spec (st : Store) (uid c : String) (p : ChatPreview)
    (h : mkPreview st uid c = some p) :
    p.unread
      = if st.countFails.contains c then 0
        else (st.messages.filter fun m =>
          m.chat_id == c && m.read == false && m.sender_id != uid).length := by
  cases ho : findOther st uid c with
  | none => simp [mkPreview, ho] at h
  | some o =>
    cases hp : findProfileRow st o with
    | none => simp [mkPreview, ho, hp] at h
    | some pr =>
      have hval : (mkPreview st uid c).map (fun q => q.unread)
          = some (match unreadCountQuery st uid c with
                  | some n => n
                  | none => 0) := by
        simp [mkPreview, ho, hp]
      rw [h] at hval
      simp only [Option.map_some', Option.some.injEq] at hval
      rw [hval]
      by_cases hc : c ∈ st.countFails <;> simp [unreadCountQuery, hc]

/-- Witness for C5 on `storeC5`: one unread foreign message, one read
foreign message, one unread own message give `unread = 1`. -/
theorem c5_unread_count_spec_witness :
    ({ id := "B", username := "Bea", avatar_url := none, last_message := "mine",
       last_time := "00:00", unread := 1 } : ChatPreview).unread
      = if storeC5.countFails.contains "c1" then 0
        else (storeC5.messages.filter fun m =>
          m.chat_id == "c1" && m.read == false && m.sender_id != "A").length :=
  c5_unread_count_spec storeC5 "A" "c1" _ rfl

/-- Claim C6: once counterpart and profile resolve, a preview is produced
even for a conversation with no message at all, with the snippet and the
time defaulting to the empty string, and a null or empty display name
defaults to the placeholder "Usuário". -/
theorem c6_missing_message_and_name_defaults (st : Store) (uid c o : String)
    (pr : ProfileRow)
    (h1 : findOther st uid c = some o)
    (h2 : findProfileRow st o = some pr) :
    ∃ p, mkPreview st uid c = some p
      ∧ (chatMessages st c = [] → p.last_message = "" ∧ p.last_time = "")
      ∧ ((pr.username = none ∨ pr.username = some "") → p.username = "Usuário") := by
  refine ⟨{ id := o
            username := jsOrString pr.username "Usuário"
            avatar_url := pr.avatar_url
            last_message := jsOrString ((lastMessage st c).map (·.content)) ""
            last_time :=
              (match lastMessage st c with
               | some m => formatTime m.created_at
               | none => "")
            unread :=
              (match unreadCountQuery st uid c with
               | some n => n
               | none => 0) }, ?_, ?_, ?_⟩
  · simp [mkPreview, h1, h2]
  · intro hm
    have hlm : lastMessage st c = none := by
      unfold lastMessage
      rw [hm]
      rfl
    rw [hlm]
    exact ⟨rfl, rfl⟩
  · intro hu
    rcases hu with hu | hu <;> simp [jsOrString, hu]

/-- Witness for C6 on `storeC6`: empty chat and null username. -/
theorem c6_missing_message_and_name_defaults_witness :
    ∃ p, mkPreview storeC6 "A" "c1" = some p
      ∧ (chatMessages storeC6 "c1" = [] → p.last_message = "" ∧ p.last_time = "")
      ∧ (((⟨"B", none, none⟩ : ProfileRow).username = none
            ∨ (⟨"B", none, none⟩ : ProfileRow).username = some "")
          → p.username = "Usuário") :=
  c6_missing_message_and_name_defaults storeC6 "A" "c1" "B" ⟨"B", none, none⟩ rfl rfl

/-- Claim C7: every query `fetchChats` issues is a read, and replaying the
whole trace against the store leaves the store unchanged — no write, in
particular no mutation of any message's `read` flag. -/
theorem c7_no_writes_store_unchanged (s : Option String) (st : Store) :
    (∀ q ∈ (fetchChats s st).trace, q.isRead = true)
      ∧ (fetchChats s st).trace.foldl applyQuery st = st :=
  ⟨fun q hq => List.all_eq_true.mp (fetchChats_trace_isRead s st) q hq,
   foldl_applyQuery_id _ st (fetchChats_trace_isRead s st)⟩

/-- Claim C8: running `fetchChats` a second time, on the store as the first
run left it, produces the identical result (same ordered previews, same
trace). -/
theorem c8_idempotent_reload (s : Option String) (st : Store) :
    fetchChats s ((fetchChats s st).trace.foldl applyQuery st)
      = fetchChats s st := by
  rw [foldl_applyQuery_id _ st (fetchChats_trace_isRead s st)]

/-- Claim C9: a conversation with two or more participants besides the
current user makes the `.single()` counterpart lookup fail, so the
conversation yields no preview, and (membership query succeeding) no error
is surfaced to the user. -/
theorem c9_group_chat_silently_skipped (st : Store) (uid c : String)
    (h : 2 ≤ (st.participants.filter
      (fun r => r.chat_id == c && r.user_id != uid)).length) :
    mkPreview st uid c = none
      ∧ (st.membershipFails = false → (fetchChats (some uid) st).toast = none) := by
  have ho : findOther st uid c = none := by
    unfold findOther
    cases hl : st.participants.filter (fun r => r.chat_id == c && r.user_id != uid) with
    | nil => rfl
    | cons a t =>
      cases t with
      | nil => rw [hl] at h; simp at h
      | cons b t2 => rfl
  exact ⟨by simp [mkPreview, ho], fun hf => fetchChats_toast_none uid st hf⟩

/-- Witness for C9 on `storeC3`, whose chat "c3" has the two other
participants "B" and "C". -/
theorem c9_group_chat_silently_skipped_witness :
    mkPreview storeC3 "A" "c3" = none
      ∧ (storeC3.membershipFails = false
          → (fetchChats (some "A") storeC3).toast = none) :=
  c9_group_chat_silently_skipped storeC3 "A" "c3" (by decide)

/-- Claim C10: on every completion path — absent session, membership
failure, empty membership, full assembly — the `loading` flag ends up
false. -/
theorem c10_loading_always_cleared (s : Option String) (st : Store) :
    (fetchChats s st).loading = false := by
  cases s with
  | none => rfl
  | some uid =>
    rw [fetchChats_some_eq]
    by_cases hf : st.membershipFails
    · rw [if_pos hf]
    · rw [if_neg hf]
      by_cases he : (memberRows st uid).isEmpty
      · rw [if_pos he]
      · rw [if_neg he]
